import Mathlib

/-!
Shallow embedding of the `SecureExamEnvironment` React component
(browser exam-proctoring monitor): phase state machine, violation
log and severity policy, resource acquisition and teardown, and the
event-listener lifecycle. Browser side effects (callbacks to the
housing page, alerts, stopping media tracks, exiting fullscreen) are
recorded in an explicit effect trace; React state updates are
modelled as immediate explicit state passing.
-/

namespace SecureEnv

/-- The four phases of `currentStep`. -/
inductive Step where
  | agreement
  | setup
  | verification
  | exam
deriving DecidableEq

/-- Violation severity: "warning" | "critical". -/
inductive Severity where
  | warning
  | critical
deriving DecidableEq

/-- A `SecurityViolation` record: type, timestamp, severity, description. -/
structure SecurityViolation where
  vtype : String
  timestamp : Nat
  severity : Severity
  description : String
deriving DecidableEq

/-- A media stream, identified by the ids of its tracks. -/
structure MediaStream where
  tracks : List Nat
deriving DecidableEq

/-- The `systemChecks` record of boolean readiness flags. -/
structure SystemChecks where
  camera : Bool
  microphone : Bool
  fullscreen : Bool
  networkStable : Bool
  batteryLevel : Bool
  noOtherApps : Bool
deriving DecidableEq

/-- Component state: the `useState` hooks, the refs, and the
document fullscreen element (browser state read by cleanup). -/
structure EnvState where
  currentStep : Step
  isSecureMode : Bool
  cameraStream : Option MediaStream
  screenStream : Option MediaStream
  violations : List SecurityViolation
  systemChecks : SystemChecks
  examStartTime : Option Nat
  isLoading : Bool
  agreementAccepted : Bool
  violationTimeoutActive : Bool
  heartbeatActive : Bool
  docFullscreen : Bool
deriving DecidableEq

/-- Initial hook values: step "agreement", no streams, empty
violation log, all system checks false. -/
def initialState : EnvState :=
  { currentStep := Step.agreement
    isSecureMode := false
    cameraStream := none
    screenStream := none
    violations := []
    systemChecks :=
      { camera := false, microphone := false, fullscreen := false
        networkStable := false, batteryLevel := false, noOtherApps := false }
    examStartTime := none
    isLoading := false
    agreementAccepted := false
    violationTimeoutActive := false
    heartbeatActive := false
    docFullscreen := false }

/-- Observable side effects: `onSecurityViolation`, `onExitSecure`,
`alert`, `track.stop()`, `document.exitFullscreen()`, `onStartExam`. -/
inductive Effect where
  | reportViolation (description : String) (severity : Severity)
  | exitSecure
  | alert (message : String)
  | stopTrack (id : Nat)
  | exitFullscreenCall
  | startExamSignal
deriving DecidableEq

/-- `cleanupSecureMode`: stop every track of the camera stream and the
screen stream (nulling each), exit fullscreen if engaged, clear the
heartbeat interval, and leave secure mode. It does not touch
`systemChecks` or `currentStep`. -/
def cleanupSecureMode (s : EnvState) : EnvState × List Effect :=
  let p1 :=
    match s.cameraStream with
    | some st => ({ s with cameraStream := none }, st.tracks.map Effect.stopTrack)
    | none => (s, [])
  let p2 :=
    match p1.1.screenStream with
    | some st => ({ p1.1 with screenStream := none }, st.tracks.map Effect.stopTrack)
    | none => (p1.1, [])
  let p3 :=
    if p2.1.docFullscreen then
      ({ p2.1 with docFullscreen := false }, [Effect.exitFullscreenCall])
    else (p2.1, [])
  ({ p3.1 with heartbeatActive := false, isSecureMode := false },
    p1.2 ++ p2.2 ++ p3.2)

/-- `handleSecurityTermination`: clear the pending violation timeout,
alert the user, run `cleanupSecureMode`, then signal `onExitSecure`. -/
def handleSecurityTermination (reason : String) (s : EnvState) : EnvState × List Effect :=
  let s1 := { s with violationTimeoutActive := false }
  let p := cleanupSecureMode s1
  (p.1,
    Effect.alert ("Security violation detected: " ++ reason ++ "\nExam will be terminated.")
      :: (p.2 ++ [Effect.exitSecure]))

/-- `addViolation`: append the violation to the log, forward it to
`onSecurityViolation`, and auto-terminate when severity is critical. -/
def addViolation (t : Nat) (vtype : String) (severity : Severity)
    (description : String) (s : EnvState) : EnvState × List Effect :=
  let s1 := { s with violations :=
    s.violations ++ [{ vtype := vtype, timestamp := t, severity := severity
                       description := description }] }
  if severity = Severity.critical then
    let p := handleSecurityTermination description s1
    (p.1, Effect.reportViolation description severity :: p.2)
  else
    (s1, [Effect.reportViolation description severity])

/-- Outcomes the browser supplies to the asynchronous acquisition
calls made during `startSecureSetup`: the `getUserMedia` result, the
`requestFullscreen` outcome, the `getDisplayMedia` result, and
`navigator.onLine`. -/
structure BrowserEnv where
  cameraResult : Option MediaStream
  fullscreenOk : Bool
  screenResult : Option MediaStream
  online : Bool

/-- `setupCamera`: on success bind the stream and mark the camera and
microphone checks true; on denial record a critical `camera-denied`
violation and return false (the function catches, it never throws). -/
def setupCamera (t : Nat) (res : Option MediaStream) (s : EnvState) :
    (EnvState × List Effect) × Bool :=
  match res with
  | some stream =>
    (({ s with cameraStream := some stream
               systemChecks := { s.systemChecks with camera := true, microphone := true } },
      []), true)
  | none =>
    (addViolation t "camera-denied" Severity.critical
      "Camera access denied or unavailable" s, false)

/-- `setupScreenShare`: on success bind the screen stream; on denial the
internal catch records a critical `screen-denied` violation and returns
false — the function resolves rather than rejecting. -/
def setupScreenShare (t : Nat) (res : Option MediaStream) (s : EnvState) :
    (EnvState × List Effect) × Bool :=
  match res with
  | some stream =>
    (({ s with screenStream := some stream }, []), true)
  | none =>
    (addViolation t "screen-denied" Severity.critical "Screen sharing denied" s, false)

/-- `enterFullscreen`: on success the document enters fullscreen and the
fullscreen check turns true; on failure record a critical
`fullscreen-denied` violation and return false. -/
def enterFullscreen (t : Nat) (ok : Bool) (s : EnvState) :
    (EnvState × List Effect) × Bool :=
  if ok then
    (({ s with docFullscreen := true
               systemChecks := { s.systemChecks with fullscreen := true } },
      []), true)
  else
    (addViolation t "fullscreen-denied" Severity.critical "Fullscreen mode denied" s, false)

/-- `startSecureSetup`: guarded by the agreement checkbox; runs camera,
fullscreen, then screen-share acquisition. A false return from camera or
fullscreen throws into the catch block (cleanup, alert, back to
agreement). `setupScreenShare` resolves on failure, so its attached
rejection handler (which would have logged a warning
`screen-share-optional`) is unreachable and its result is ignored;
setup then sets `networkStable` from `navigator.onLine`, sets
`noOtherApps := true` unconditionally, enters secure mode and moves to
verification. -/
def startSecureSetup (env : BrowserEnv) (t1 t2 t3 : Nat) (s : EnvState) :
    EnvState × List Effect :=
  if s.agreementAccepted then
    let s0 := { s with isLoading := true, currentStep := Step.setup }
    let cam := setupCamera t1 env.cameraResult s0
    if cam.2 then
      let fs := enterFullscreen t2 env.fullscreenOk cam.1.1
      if fs.2 then
        let scr := setupScreenShare t3 env.screenResult fs.1.1
        let s4 := { scr.1.1 with systemChecks :=
          { scr.1.1.systemChecks with networkStable := env.online, noOtherApps := true } }
        ({ s4 with isSecureMode := true, currentStep := Step.verification, isLoading := false },
          cam.1.2 ++ fs.1.2 ++ scr.1.2)
      else
        let cl := cleanupSecureMode fs.1.1
        ({ cl.1 with currentStep := Step.agreement, isLoading := false },
          cam.1.2 ++ fs.1.2 ++ cl.2 ++
            [Effect.alert "Failed to setup secure environment. Please try again."])
    else
      let cl := cleanupSecureMode cam.1.1
      ({ cl.1 with currentStep := Step.agreement, isLoading := false },
        cam.1.2 ++ cl.2 ++
          [Effect.alert "Failed to setup secure environment. Please try again."])
  else (s, [])

/-- `startExam`: records the start time, moves to the exam step and
hands off to `onStartExam`; in the current code the try block cannot
fail, so the critical `exam-start-failed` catch path is unreachable. -/
def startExam (t : Nat) (s : EnvState) : EnvState × List Effect :=
  let s1 := { s with isLoading := true, currentStep := Step.exam, examStartTime := some t }
  ({ s1 with isLoading := false }, [Effect.startExamSignal])

/-- The `disabled` condition of the Start Exam button on the
verification screen. -/
def startExamButtonDisabled (s : EnvState) : Bool :=
  s.isLoading || !s.systemChecks.camera || !s.systemChecks.networkStable

/-- A click on the Start Exam button: it triggers `startExam` only when
the button is not disabled. -/
def confirmStartExamClick (t : Nat) (s : EnvState) : EnvState × List Effect :=
  if startExamButtonDisabled s then (s, []) else startExam t s

/-- A snapshot of the battery status object, level in percent
(`battery.level * 100`). -/
structure BatteryStatus where
  charging : Bool
  level : Nat
deriving DecidableEq

/-- `updateBatteryStatus`, the handler run on every `chargingchange` and
`levelchange` event (and once on subscription): recompute the
`batteryLevel` check and, whenever the battery is below 20% and not
charging, record a warning `battery-low` violation. -/
def updateBatteryStatus (t : Nat) (b : BatteryStatus) (s : EnvState) :
    EnvState × List Effect :=
  let s1 := { s with systemChecks :=
    { s.systemChecks with batteryLevel := b.charging || decide (b.level > 20) } }
  if !b.charging && decide (b.level < 20) then
    addViolation t "battery-low" Severity.warning
      ("Battery level low: " ++ toString b.level ++ "%") s1
  else (s1, [])

/-- The `blockedKeys` array of the keydown handler. -/
def blockedKeys : List String :=
  ["F11", "F12", "Escape", "PrintScreen", "Insert", "Delete", "Meta",
   "Alt+Tab", "Ctrl+Shift+I", "Ctrl+Shift+J", "Ctrl+U"]

/-- A keyboard event: the key string and the modifier flags. -/
structure KeyEvent where
  key : String
  ctrlKey : Bool
  shiftKey : Bool
  altKey : Bool
deriving DecidableEq

/-- The combo string built by the keydown handler:
Ctrl+ / Shift+ / Alt+ prefixes in that order, then the key. -/
def keyCombo (e : KeyEvent) : String :=
  (if e.ctrlKey then "Ctrl+" else "") ++ (if e.shiftKey then "Shift+" else "") ++
    (if e.altKey then "Alt+" else "") ++ e.key

/-- `handleKeyDown`: when the bare key or the combo is in `blockedKeys`,
prevent the default action (the returned Bool) and record a warning
`blocked-key` violation; otherwise do nothing. -/
def handleKeyDown (t : Nat) (e : KeyEvent) (s : EnvState) :
    (EnvState × List Effect) × Bool :=
  if blockedKeys.contains e.key || blockedKeys.contains (keyCombo e) then
    (addViolation t "blocked-key" Severity.warning
      ("Attempted to use blocked key: " ++ keyCombo e) s, true)
  else ((s, []), false)

/-- One entry of a violation-event sequence fed to `addViolation`. -/
structure ViolationEvent where
  t : Nat
  vtype : String
  severity : Severity
  description : String

/-- Feed a sequence of detected violations to `addViolation`,
accumulating states and effects in order. -/
def processViolations (es : List ViolationEvent) (s : EnvState) :
    EnvState × List Effect :=
  match es with
  | [] => (s, [])
  | e :: rest =>
    let p := addViolation e.t e.vtype e.severity e.description s
    let q := processViolations rest p.1
    (q.1, p.2 ++ q.2)

/-- The event listeners and timers registered by the three secure-mode
`useEffect`s. -/
inductive Listener where
  | fullscreenchange
  | visibilitychange
  | blur
  | keydown
  | contextmenu
  | mouseleave
  | online
  | offline
  | heartbeatInterval
  | batteryChargingchange
  | batteryLevelchange
deriving DecidableEq

/-- Listeners attached by the security-monitoring effect (all removed
by its cleanup). -/
def securityListeners : List Listener :=
  [Listener.fullscreenchange, Listener.visibilitychange, Listener.blur,
   Listener.keydown, Listener.contextmenu, Listener.mouseleave]

/-- Listeners and the heartbeat interval attached by the
network-monitoring effect (all removed by its cleanup). -/
def networkListeners : List Listener :=
  [Listener.online, Listener.offline, Listener.heartbeatInterval]

/-- Listeners attached on the battery object by the battery-monitoring
effect when the battery API exists. -/
def batteryListeners : List Listener :=
  [Listener.batteryChargingchange, Listener.batteryLevelchange]

/-- Attachments performed when `isSecureMode` becomes true: the three
effects run and register their listeners. -/
def enterSecureListeners (hasBatteryAPI : Bool) (L : List Listener) : List Listener :=
  L ++ securityListeners ++ networkListeners ++
    (if hasBatteryAPI then batteryListeners else [])

/-- Detachments performed when secure mode ends: the security and
network effects return cleanups that remove what they attached; the
battery effect returns no cleanup, so it removes nothing. -/
def exitSecureListeners (L : List Listener) : List Listener :=
  (L.filter (fun l => !securityListeners.contains l)).filter
    (fun l => !networkListeners.contains l)

/-- The listeners still attached after one enter/exit round trip of
secure mode. -/
def listenersAfterSession (hasBatteryAPI : Bool) : List Listener :=
  exitSecureListeners (enterSecureListeners hasBatteryAPI [])

/-- Deliver a battery `levelchange` event: the handler runs only if its
listener is still attached. -/
def dispatchBatteryLevelchange (L : List Listener) (t : Nat) (b : BatteryStatus)
    (s : EnvState) : EnvState × List Effect :=
  if L.contains Listener.batteryLevelchange then updateBatteryStatus t b s else (s, [])

/-- Overwrite only the `noOtherApps` flag of a state. -/
def setNoOtherApps (b : Bool) (s : EnvState) : EnvState :=
  { s with systemChecks := { s.systemChecks with noOtherApps := b } }

/-! ## Helper lemmas -/

theorem cleanupSecureMode_fst (s : EnvState) :
    (cleanupSecureMode s).1 =
      { s with cameraStream := none, screenStream := none, docFullscreen := false,
               heartbeatActive := false, isSecureMode := false } := by
  cases s with
  | mk cs sec cam scr vio chk est ld agr vt hb fs =>
    cases cam <;> cases scr <;> cases fs <;> rfl

theorem cleanupSecureMode_no_exit (s : EnvState) :
    Effect.exitSecure ∉ (cleanupSecureMode s).2 := by
  cases s with
  | mk cs sec cam scr vio chk est ld agr vt hb fs =>
    cases cam <;> cases scr <;> cases fs <;> simp [cleanupSecureMode]

theorem cleanupSecureMode_snd_empty (s : EnvState) (h1 : s.cameraStream = none)
    (h2 : s.screenStream = none) (h3 : s.docFullscreen = false) :
    (cleanupSecureMode s).2 = [] := by
  simp [cleanupSecureMode, h1, h2, h3]

theorem handleSecurityTermination_fst (r : String) (s : EnvState) :
    (handleSecurityTermination r s).1 =
      { s with violationTimeoutActive := false, cameraStream := none,
               screenStream := none, docFullscreen := false,
               heartbeatActive := false, isSecureMode := false } := by
  simp [handleSecurityTermination, cleanupSecureMode_fst]

theorem handleSecurityTermination_exit_mem (r : String) (s : EnvState) :
    Effect.exitSecure ∈ (handleSecurityTermination r s).2 := by
  simp [handleSecurityTermination]

theorem handleSecurityTermination_snd_clean (r : String) (s : EnvState)
    (h1 : s.cameraStream = none) (h2 : s.screenStream = none)
    (h3 : s.docFullscreen = false) :
    (handleSecurityTermination r s).2 =
      [Effect.alert ("Security violation detected: " ++ r ++ "\nExam will be terminated."),
        Effect.exitSecure] := by
  simp only [handleSecurityTermination]
  rw [cleanupSecureMode_snd_empty]
  · rfl
  · exact h1
  · exact h2
  · exact h3

theorem addViolation_warning_eq (t : Nat) (v d : String) (s : EnvState) :
    addViolation t v Severity.warning d s =
      ({ s with violations := s.violations ++
          [{ vtype := v, timestamp := t, severity := Severity.warning, description := d }] },
        [Effect.reportViolation d Severity.warning]) := rfl

theorem addViolation_critical_fst (t : Nat) (v d : String) (s : EnvState) :
    (addViolation t v Severity.critical d s).1 =
      { s with
        violations := s.violations ++
          [{ vtype := v, timestamp := t, severity := Severity.critical, description := d }]
        violationTimeoutActive := false
        cameraStream := none
        screenStream := none
        docFullscreen := false
        heartbeatActive := false
        isSecureMode := false } := by
  simp [addViolation, handleSecurityTermination_fst]

theorem addViolation_currentStep (t : Nat) (v : String) (sev : Severity) (d : String)
    (s : EnvState) : (addViolation t v sev d s).1.currentStep = s.currentStep := by
  cases sev
  · rfl
  · rw [addViolation_critical_fst]

theorem addViolation_systemChecks (t : Nat) (v : String) (sev : Severity) (d : String)
    (s : EnvState) : (addViolation t v sev d s).1.systemChecks = s.systemChecks := by
  cases sev
  · rfl
  · rw [addViolation_critical_fst]

theorem addViolation_violations (t : Nat) (v : String) (sev : Severity) (d : String)
    (s : EnvState) : (addViolation t v sev d s).1.violations =
      s.violations ++ [{ vtype := v, timestamp := t, severity := sev, description := d }] := by
  cases sev
  · rfl
  · rw [addViolation_critical_fst]

theorem addViolation_exit_iff (t : Nat) (v : String) (sev : Severity) (d : String)
    (s : EnvState) : Effect.exitSecure ∈ (addViolation t v sev d s).2 ↔
      sev = Severity.critical := by
  cases sev
  · simp [addViolation_warning_eq]
  · simp [addViolation, handleSecurityTermination_exit_mem]

theorem processViolations_currentStep (es : List ViolationEvent) (s : EnvState) :
    (processViolations es s).1.currentStep = s.currentStep := by
  induction es generalizing s with
  | nil => rfl
  | cons e rest ih =>
    simp only [processViolations]
    rw [ih, addViolation_currentStep]

theorem processViolations_exit_iff (es : List ViolationEvent) (s : EnvState) :
    Effect.exitSecure ∈ (processViolations es s).2 ↔
      ∃ e ∈ es, e.severity = Severity.critical := by
  induction es generalizing s with
  | nil => simp [processViolations]
  | cons e rest ih =>
    simp [processViolations, List.mem_append, addViolation_exit_iff, ih]

/-! ## Claim theorems -/

/-- C2: for every sequence of detected violations in which none has
critical severity, the phase is unchanged (no auto-termination) and no
exit-secure signal is emitted; and across all sequences the termination
signal is emitted if and only if at least one critical violation was
recorded since the start of the sequence. -/
theorem termination_iff_critical (es : List ViolationEvent) (s : EnvState) :
    ((∀ e ∈ es, e.severity ≠ Severity.critical) →
      (processViolations es s).1.currentStep = s.currentStep ∧
        Effect.exitSecure ∉ (processViolations es s).2) ∧
    (Effect.exitSecure ∈ (processViolations es s).2 ↔
      ∃ e ∈ es, e.severity = Severity.critical) := by
  refine ⟨fun h => ⟨processViolations_currentStep es s, ?_⟩,
    processViolations_exit_iff es s⟩
  rw [processViolations_exit_iff]
  rintro ⟨e, he, hc⟩
  exact h e he hc

/-- Witness for C2 at a concrete two-warning sequence. -/
theorem termination_iff_critical_witness :
    (processViolations
        [⟨0, "focus-loss", Severity.warning, "Lost window focus"⟩,
         ⟨1, "mouse-leave", Severity.warning, "Mouse left the exam window"⟩]
        { initialState with currentStep := Step.verification }).1.currentStep =
      { initialState with currentStep := Step.verification }.currentStep ∧
    Effect.exitSecure ∉ (processViolations
        [⟨0, "focus-loss", Severity.warning, "Lost window focus"⟩,
         ⟨1, "mouse-leave", Severity.warning, "Mouse left the exam window"⟩]
        { initialState with currentStep := Step.verification }).2 := by
  exact (termination_iff_critical _ _).1 (by decide)

/-- C5: with camera acquisition denied (and the agreement accepted), the
whole setup run ends back at the agreement step with cleanup applied
(no streams held, secure mode off), exactly one critical `camera-denied`
violation appended to the log, and `setupCamera` itself returns false
rather than throwing. -/
theorem camera_denied_rollback (fsOk online : Bool) (scr : Option MediaStream)
    (t1 t2 t3 : Nat) (s : EnvState) :
    ((startSecureSetup ⟨none, fsOk, scr, online⟩ t1 t2 t3
        { s with agreementAccepted := true }).1.currentStep = Step.agreement ∧
      (startSecureSetup ⟨none, fsOk, scr, online⟩ t1 t2 t3
        { s with agreementAccepted := true }).1.violations =
        s.violations ++
          [⟨"camera-denied", t1, Severity.critical, "Camera access denied or unavailable"⟩] ∧
      (startSecureSetup ⟨none, fsOk, scr, online⟩ t1 t2 t3
        { s with agreementAccepted := true }).1.cameraStream = none ∧
      (startSecureSetup ⟨none, fsOk, scr, online⟩ t1 t2 t3
        { s with agreementAccepted := true }).1.screenStream = none ∧
      (startSecureSetup ⟨none, fsOk, scr, online⟩ t1 t2 t3
        { s with agreementAccepted := true }).1.isSecureMode = false) ∧
    (setupCamera t1 none s).2 = false := by
  constructor
  · simp only [startSecureSetup, setupCamera]
    simp [addViolation_critical_fst, cleanupSecureMode_fst]
  · rfl

/-- C9: from the verification step, a click on the confirm-start button
moves to the exam step only if the camera and networkStable checks are
both true; while either is false the button is disabled and the click
leaves the state (hence the verification phase) unchanged. -/
theorem startExam_gating (t : Nat) (s : EnvState)
    (hv : s.currentStep = Step.verification) :
    ((confirmStartExamClick t s).1.currentStep = Step.exam →
      s.systemChecks.camera = true ∧ s.systemChecks.networkStable = true) ∧
    ((s.systemChecks.camera = false ∨ s.systemChecks.networkStable = false) →
      startExamButtonDisabled s = true ∧ (confirmStartExamClick t s).1 = s ∧
        (confirmStartExamClick t s).2 = []) := by
  constructor
  · intro h
    by_cases hd : startExamButtonDisabled s = true
    · rw [confirmStartExamClick, if_pos hd] at h
      rw [hv] at h
      exact absurd h (by simp)
    · rw [Bool.not_eq_true] at hd
      have h2 := hd
      simp only [startExamButtonDisabled, Bool.or_eq_false_iff,
        Bool.not_eq_false'] at h2
      exact ⟨h2.1.2, h2.2⟩
  · intro h
    have hd : startExamButtonDisabled s = true := by
      rcases h with hc | hn
      · simp [startExamButtonDisabled, hc]
      · simp [startExamButtonDisabled, hn]
    rw [confirmStartExamClick, if_pos hd]
    exact ⟨hd, rfl, rfl⟩

/-- Witness for C9: on a verification-step state with the camera check
false, the button is disabled and the click is a no-op. -/
theorem startExam_gating_witness :
    startExamButtonDisabled { initialState with currentStep := Step.verification } = true ∧
    (confirmStartExamClick 0 { initialState with currentStep := Step.verification }).1 =
      { initialState with currentStep := Step.verification } ∧
    (confirmStartExamClick 0 { initialState with currentStep := Step.verification }).2 = [] := by
  exact (startExam_gating 0 { initialState with currentStep := Step.verification } rfl).2
    (Or.inl rfl)

/-- C10: every successful setup run ends with `noOtherApps = true`
regardless of the browser environment (screen-share result, online
flag) and of the prior state; and every other operation of the
component commutes with overwriting the `noOtherApps` flag — so none of
them reads it for gating, none emits a violation or an effect based on
it, and none sets it back to false before cleanup (cleanup included). -/
theorem noOtherApps_unconditional_and_unread (stream : MediaStream)
    (scr : Option MediaStream) (online b : Bool) (t1 t2 t3 t : Nat)
    (s : EnvState) (v d r : String) (sev : Severity) (e : KeyEvent)
    (bat : BatteryStatus) :
    (startSecureSetup ⟨some stream, true, scr, online⟩ t1 t2 t3
        { s with agreementAccepted := true }).1.systemChecks.noOtherApps = true ∧
    addViolation t v sev d (setNoOtherApps b s) =
      (setNoOtherApps b (addViolation t v sev d s).1, (addViolation t v sev d s).2) ∧
    cleanupSecureMode (setNoOtherApps b s) =
      (setNoOtherApps b (cleanupSecureMode s).1, (cleanupSecureMode s).2) ∧
    handleSecurityTermination r (setNoOtherApps b s) =
      (setNoOtherApps b (handleSecurityTermination r s).1,
        (handleSecurityTermination r s).2) ∧
    handleKeyDown t e (setNoOtherApps b s) =
      ((setNoOtherApps b (handleKeyDown t e s).1.1, (handleKeyDown t e s).1.2),
        (handleKeyDown t e s).2) ∧
    updateBatteryStatus t bat (setNoOtherApps b s) =
      (setNoOtherApps b (updateBatteryStatus t bat s).1,
        (updateBatteryStatus t bat s).2) ∧
    confirmStartExamClick t (setNoOtherApps b s) =
      (setNoOtherApps b (confirmStartExamClick t s).1, (confirmStartExamClick t s).2) ∧
    startExam t (setNoOtherApps b s) =
      (setNoOtherApps b (startExam t s).1, (startExam t s).2) := by
  refine ⟨rfl, ?_, ?_, ?_, ?_, ?_, ?_, rfl⟩
  · cases sev with
    | warning => rfl
    | critical =>
      cases s with
      | mk cs sec cam sc2 vio chk est ld agr vt hb fs =>
        cases cam <;> cases sc2 <;> cases fs <;> rfl
  · cases s with
    | mk cs sec cam sc2 vio chk est ld agr vt hb fs =>
      cases cam <;> cases sc2 <;> cases fs <;> rfl
  · cases s with
    | mk cs sec cam sc2 vio chk est ld agr vt hb fs =>
      cases cam <;> cases sc2 <;> cases fs <;> rfl
  · simp only [handleKeyDown]
    by_cases h : (blockedKeys.contains e.key || blockedKeys.contains (keyCombo e)) = true
    · rw [if_pos h, if_pos h]; rfl
    · rw [if_neg h, if_neg h]
  · simp only [updateBatteryStatus]
    by_cases h : (!bat.charging && decide (bat.level < 20)) = true
    · rw [if_pos h, if_pos h]; rfl
    · rw [if_neg h, if_neg h]; rfl
  · simp only [confirmStartExamClick]
    have hb2 : startExamButtonDisabled (setNoOtherApps b s) = startExamButtonDisabled s := rfl
    rw [hb2]
    by_cases h : startExamButtonDisabled s = true
    · rw [if_pos h, if_pos h]
    · rw [if_neg h, if_neg h]; rfl

/-- C1 (evaluation of the code at the failing input): with the
agreement accepted, camera and fullscreen acquisition succeeding and
screen-share acquisition denied, setup still moves on to the
verification step, but the violation recorded for the failure is a
single critical `screen-denied` — not a warning `screen-share-optional`,
of which none is ever recorded — and the critical violation fires
termination, emitting the exit-secure signal to the housing page. -/
theorem screen_share_denied_behavior :
    (startSecureSetup ⟨some ⟨[1, 2]⟩, true, none, true⟩ 0 1 2
        { initialState with agreementAccepted := true }).1.currentStep =
      Step.verification ∧
    ((startSecureSetup ⟨some ⟨[1, 2]⟩, true, none, true⟩ 0 1 2
        { initialState with agreementAccepted := true }).1.violations.map
          fun v => (v.vtype, v.severity)) = [("screen-denied", Severity.critical)] ∧
    Effect.exitSecure ∈ (startSecureSetup ⟨some ⟨[1, 2]⟩, true, none, true⟩ 0 1 2
        { initialState with agreementAccepted := true }).2 ∧
    (∀ v ∈ (startSecureSetup ⟨some ⟨[1, 2]⟩, true, none, true⟩ 0 1 2
        { initialState with agreementAccepted := true }).1.violations,
      v.vtype ≠ "screen-share-optional") := by
  refine ⟨rfl, rfl, ?_, ?_⟩ <;> decide

/-- A secure-mode verification state holding a camera stream, as after
a successful setup. -/
def inExamStateWithCamera : EnvState :=
  { initialState with
    cameraStream := some ⟨[7]⟩
    docFullscreen := true
    isSecureMode := true
    currentStep := Step.verification }

/-- C3 counterexample: on a secure-mode state holding a camera stream,
a second invocation of `handleSecurityTermination` does emit a second
exit-secure signal (two in total across the two calls, where the claim
allows only the first), with an effect trace that is not empty. -/
theorem terminate_second_exit_signal_counterexample :
    ((handleSecurityTermination "Switched tabs or minimized window"
        (handleSecurityTermination "Switched tabs or minimized window"
          inExamStateWithCamera).1).2 ≠ []) ∧
    Effect.exitSecure ∈
      (handleSecurityTermination "Switched tabs or minimized window"
        (handleSecurityTermination "Switched tabs or minimized window"
          inExamStateWithCamera).1).2 ∧
    ((handleSecurityTermination "Switched tabs or minimized window"
        inExamStateWithCamera).2 ++
      (handleSecurityTermination "Switched tabs or minimized window"
        (handleSecurityTermination "Switched tabs or minimized window"
          inExamStateWithCamera).1).2).count
      Effect.exitSecure = 2 := by
  refine ⟨?_, ?_, ?_⟩ <;> decide

/-- C3 amended: a second call to `handleSecurityTermination` while the
first teardown has completed its state changes does not throw, changes
no further state, and stops no media-stream tracks nor re-exits
fullscreen, but it is not signal-idempotent: every call re-raises the
termination alert and re-sends the exit-secure signal. -/
theorem terminate_second_call_amended (s : EnvState) (r1 r2 : String) :
    (handleSecurityTermination r2 (handleSecurityTermination r1 s).1).1 =
      (handleSecurityTermination r1 s).1 ∧
    (handleSecurityTermination r2 (handleSecurityTermination r1 s).1).2 =
      [Effect.alert ("Security violation detected: " ++ r2 ++ "\nExam will be terminated."),
        Effect.exitSecure] := by
  constructor
  · rw [handleSecurityTermination_fst, handleSecurityTermination_fst]
  · apply handleSecurityTermination_snd_clean <;> rw [handleSecurityTermination_fst]

/-- C4 counterexample: after a setup that turned the system checks on,
calling `cleanupSecureMode` twice in a row leaves the camera check (and
the others) still true, not false. -/
theorem cleanup_leaves_flags_counterexample :
    (cleanupSecureMode (cleanupSecureMode
        { initialState with
          systemChecks := ⟨true, true, true, true, true, true⟩ }).1).1.systemChecks.camera = true := by
  decide

/-- C4 amended: `cleanupSecureMode` is total (produces no error), can be
called twice in a row from any state — the second call changes nothing —
and it never modifies the system-check flags; consequently on a session
that never reached Setup (the initial state) all flags are still false
after repeated cleanup, but flags set true by a setup stay true. -/
theorem cleanup_twice_amended (s : EnvState) :
    (cleanupSecureMode s).1.systemChecks = s.systemChecks ∧
    (cleanupSecureMode (cleanupSecureMode s).1).1 = (cleanupSecureMode s).1 ∧
    (cleanupSecureMode (cleanupSecureMode s).1).2 = [] ∧
    (cleanupSecureMode (cleanupSecureMode initialState).1).1.systemChecks =
      { camera := false, microphone := false, fullscreen := false,
        networkStable := false, batteryLevel := false, noOtherApps := false } := by
  refine ⟨?_, ?_, ?_, by decide⟩
  · rw [cleanupSecureMode_fst]
  · rw [cleanupSecureMode_fst s, cleanupSecureMode_fst]
  · apply cleanupSecureMode_snd_empty <;> rw [cleanupSecureMode_fst]

/-- C6 counterexample: two consecutive battery level-change events,
both with the battery at 15% and not charging (the condition persisting
without interruption), each record a warning `battery-low` violation —
the second event re-fires instead of being suppressed. -/
theorem battery_low_refires_counterexample :
    ((updateBatteryStatus 1 ⟨false, 15⟩
        (updateBatteryStatus 0 ⟨false, 15⟩ initialState).1).1.violations.map
      fun v => (v.vtype, v.severity)) =
      [("battery-low", Severity.warning), ("battery-low", Severity.warning)] := by
  decide

/-- C6 amended: while secure mode is active and battery status is
available, a warning `battery-low` violation is emitted on every
charging/level-change event handled while the battery is below 20% and
not charging — once per event, re-firing while the condition persists —
and on no other event; the handler also recomputes the `batteryLevel`
check on every event. -/
theorem battery_low_per_event_amended (t : Nat) (b : BatteryStatus) (s : EnvState) :
    (updateBatteryStatus t b s).1.violations =
      s.violations ++
        (if !b.charging && decide (b.level < 20) then
          [⟨"battery-low", t, Severity.warning,
            "Battery level low: " ++ toString b.level ++ "%"⟩]
        else []) ∧
    (updateBatteryStatus t b s).1.systemChecks.batteryLevel =
      (b.charging || decide (b.level > 20)) := by
  by_cases h : (!b.charging && decide (b.level < 20)) = true
  · constructor
    · simp only [updateBatteryStatus]
      rw [if_pos h, if_pos h, addViolation_violations]
    · simp only [updateBatteryStatus]
      rw [if_pos h, addViolation_systemChecks]
  · constructor
    · simp only [updateBatteryStatus]
      rw [if_neg h, if_neg h, List.append_nil]
    · simp only [updateBatteryStatus]
      rw [if_neg h]

/-- C7 (evaluation of the listener-lifecycle code): after one
enter/exit round trip of secure mode the security and network listeners
are all detached, but when the battery API is present the two battery
listeners are still attached — the battery effect registers them and
returns no cleanup — and a levelchange event delivered after teardown
still records a `battery-low` violation. -/
theorem battery_listener_leak :
    listenersAfterSession false = [] ∧
    listenersAfterSession true = batteryListeners ∧
    ((dispatchBatteryLevelchange (listenersAfterSession true) 5 ⟨false, 15⟩
        { initialState with currentStep := Step.verification }).1.violations.map
      fun v => (v.vtype, v.severity)) = [("battery-low", Severity.warning)] := by
  refine ⟨rfl, rfl, ?_⟩
  decide

/-- The blocked-key set exactly as enumerated by the claim (bare keys
F11, F12, Escape, PrintScreen, Insert, Delete, Meta and the combos
Ctrl+Shift+I, Ctrl+Shift+J, Ctrl+U), for comparison with the source's
`blockedKeys`. -/
def claimBlockedKeys : List String :=
  ["F11", "F12", "Escape", "PrintScreen", "Insert", "Delete", "Meta",
   "Ctrl+Shift+I", "Ctrl+Shift+J", "Ctrl+U"]

/-- C8 counterexample: a keydown of Tab with Alt held matches neither
the bare-key form nor the combo form of the claim's enumerated blocked
set, so by the claim it must record no violation and not be suppressed;
the code records a warning `blocked-key` violation and prevents the
default action, because its `blockedKeys` array also contains the
entry Alt+Tab. -/
theorem alt_tab_counterexample :
    claimBlockedKeys.contains "Tab" = false ∧
    claimBlockedKeys.contains (keyCombo ⟨"Tab", false, false, true⟩) = false ∧
    (handleKeyDown 0 ⟨"Tab", false, false, true⟩ initialState).2 = true ∧
    ((handleKeyDown 0 ⟨"Tab", false, false, true⟩ initialState).1.1.violations.map
      fun v => (v.vtype, v.severity)) = [("blocked-key", Severity.warning)] := by
  refine ⟨?_, ?_, ?_, ?_⟩ <;> decide

/-- C8 amended: the blocked set is the claim's enumerated set plus the
entry Alt+Tab; for every keydown received in secure mode, the default
action is cancelled exactly when the bare key or the composed
Ctrl+/Shift+/Alt+ combo is in that set, in which case exactly one
warning `blocked-key` violation is appended (and reported); a keydown
matching neither form changes nothing and is not suppressed. -/
theorem blocked_key_amended (t : Nat) (e : KeyEvent) (s : EnvState) :
    blockedKeys.Perm ("Alt+Tab" :: claimBlockedKeys) ∧
    (handleKeyDown t e s).2 =
      (blockedKeys.contains e.key || blockedKeys.contains (keyCombo e)) ∧
    (handleKeyDown t e s).1.1.violations =
      s.violations ++
        (if blockedKeys.contains e.key || blockedKeys.contains (keyCombo e) then
          [⟨"blocked-key", t, Severity.warning,
            "Attempted to use blocked key: " ++ keyCombo e⟩]
        else []) ∧
    (handleKeyDown t e s).1.2 =
      (if blockedKeys.contains e.key || blockedKeys.contains (keyCombo e) then
        [Effect.reportViolation ("Attempted to use blocked key: " ++ keyCombo e)
          Severity.warning]
      else []) := by
  refine ⟨by decide, ?_, ?_, ?_⟩
  · simp only [handleKeyDown]
    by_cases h : (blockedKeys.contains e.key || blockedKeys.contains (keyCombo e)) = true
    · rw [if_pos h, h]
    · rw [if_neg h, (Bool.not_eq_true _).mp h]
  · simp only [handleKeyDown]
    by_cases h : (blockedKeys.contains e.key || blockedKeys.contains (keyCombo e)) = true
    · rw [if_pos h, if_pos h, addViolation_violations]
    · rw [if_neg h, if_neg h, List.append_nil]
  · simp only [handleKeyDown]
    by_cases h : (blockedKeys.contains e.key || blockedKeys.contains (keyCombo e)) = true
    · rw [if_pos h, if_pos h]
      rfl
    · rw [if_neg h, if_neg h]

end SecureEnv
